import Mathlib

/-!
Shallow embedding of the Yu7 order monitor (src/xiaomi_monitor.py and the
startup validation in src/xiaomi_start_monitor.py), together with proofs
about its change-detection, history-store, fetch-classification,
notification-dispatch and startup behaviour.

Conventions of the embedding:
* Python dictionaries holding a fixed set of keys become structures.
* A Python value that may be None (or a dictionary key that may be absent)
  becomes an Option.
* The wall clock (datetime.now) is an external input, modelled as a Nat
  counter threaded through the monitor state.
* Network transport (requests.post, smtplib) is an external input: the
  fetch path takes the classified response as a parameter, the SMTP path
  takes a Boolean oracle saying whether the SMTP session raises.
* Exceptions are explicit: code that Python aborts with an uncaught
  KeyError is embedded in Except, and exceptions that the source catches
  locally become explicit outcome values.
-/

namespace Yu7Monitor

/-- One fetched status, as returned by SingleTaskMonitor.get_current_status
(src/xiaomi_monitor.py lines 186-192).  Both order_status and
order_status_name are filled from buyCarInfo.get with key vid, which may be
absent, hence Option String. -/
structure StatusInfo where
  order_status : Option String
  order_status_name : Option String
  order_id : String
  task_id : String
  task_name : String
deriving DecidableEq, Repr

/-- One stored history record, as built by MemoryStorage.save_status
(src/xiaomi_monitor.py lines 49-55). -/
structure StatusRecord where
  order_id : String
  order_status : Option String
  order_status_name : Option String
  check_time : Nat
  change_detected : Bool
deriving DecidableEq, Repr

/-- The record that save_status builds from a status dictionary, a clock
reading and the change flag. -/
def mkRecord (status : StatusInfo) (now : Nat) (flag : Bool) : StatusRecord :=
  { order_id := status.order_id
    order_status := status.order_status
    order_status_name := status.order_status_name
    check_time := now
    change_detected := flag }

/-- MemoryStorage (src/xiaomi_monitor.py lines 31-37): status_history is a
defaultdict(list), so an unknown task id reads as the empty list; the
function representation captures exactly that. -/
structure MemoryStorage where
  status_history : String → List StatusRecord
  max_history_size : Nat

/-- The store as __init__ builds it: no records, cap 1000. -/
def MemoryStorage.init : MemoryStorage :=
  { status_history := fun _ => [], max_history_size := 1000 }

/-- Python slicing l[-limit:] for a nonnegative limit: for limit = 0 the
index -0 is 0 and the whole list is returned; otherwise the last limit
elements (all of them when limit exceeds the length). -/
def pySliceLast {α : Type} (l : List α) (limit : Nat) : List α :=
  if limit = 0 then l else l.drop (l.length - limit)

/-- The append-then-truncate step of save_status (src/xiaomi_monitor.py
lines 57-61): append the record, then, if the length exceeds the cap,
keep the slice [-cap:]. -/
def appendCapped (history : List StatusRecord) (record : StatusRecord)
    (cap : Nat) : List StatusRecord :=
  if (history ++ [record]).length > cap then pySliceLast (history ++ [record]) cap
  else history ++ [record]

/-- MemoryStorage.save_status (src/xiaomi_monitor.py lines 39-66): build the
record, append it to the task sequence and truncate to the cap.  In the
source the body sits in a try/except, but with a well-typed status every
key access succeeds, so no exception path remains. -/
def save_status (st : MemoryStorage) (task_id : String) (status : StatusInfo)
    (now : Nat) (change_detected : Bool) : MemoryStorage :=
  { st with
    status_history := fun tid =>
      if tid = task_id then
        appendCapped (st.status_history task_id)
          (mkRecord status now change_detected) st.max_history_size
      else st.status_history tid }

/-- MemoryStorage.get_latest_status (src/xiaomi_monitor.py lines 68-81):
history[-1] when nonempty, otherwise None. -/
def get_latest_status (st : MemoryStorage) (task_id : String) :
    Option StatusRecord :=
  (st.status_history task_id).getLast?

/-- MemoryStorage.get_status_history (src/xiaomi_monitor.py lines 83-95):
history[-limit:] if history else []. -/
def get_status_history (st : MemoryStorage) (task_id : String)
    (limit : Nat) : List StatusRecord :=
  if (st.status_history task_id).isEmpty then []
  else pySliceLast (st.status_history task_id) limit

/-- MemoryStorage.clear_history (src/xiaomi_monitor.py lines 97-109).  The
source tests the argument with Python truthiness: None and the empty
string are falsy and clear the whole mapping; any other string clears
only that task (a defaultdict read creates the entry, then clear empties
it, which the function representation renders as setting it to []). -/
def clear_history (st : MemoryStorage) (task_id : Option String) :
    MemoryStorage :=
  match task_id with
  | some tid =>
    if tid = "" then { st with status_history := fun _ => [] }
    else { st with status_history := fun x => if x = tid then [] else st.status_history x }
  | none => { st with status_history := fun _ => [] }

/-- Fold of save_status over a heterogeneous sequence of appends
(task id, status, clock, flag). -/
def save_many (st : MemoryStorage)
    (ops : List (String × StatusInfo × Nat × Bool)) : MemoryStorage :=
  ops.foldl (fun s op => save_status s op.1 op.2.1 op.2.2.1 op.2.2.2) st

/-- Fold of save_status over a sequence of appends to one task. -/
def save_many_one (st : MemoryStorage) (tid : String)
    (ops : List (StatusInfo × Nat × Bool)) : MemoryStorage :=
  ops.foldl (fun s op => save_status s tid op.1 op.2.1 op.2.2) st

/-- The part of a fetch that is external input to
SingleTaskMonitor.get_current_status (src/xiaomi_monitor.py lines 160-205):
either the request raised (requests.exceptions.RequestException or any
other exception, both of which the source catches and maps to None), or a
response arrived with an HTTP status code, the payload field code, whether
the payload carries a data key, and the vid extracted from
data.buyCarInfo (absent keys give none). -/
inductive FetchInput where
  | exn : FetchInput
  | resp (status_code : Nat) (code : Option Int) (hasData : Bool)
      (vid : Option String) : FetchInput
deriving DecidableEq, Repr

/-- SingleTaskMonitor.get_current_status (src/xiaomi_monitor.py lines
160-205), with the transport outcome passed in: a record is produced
exactly for status code 200 with payload code equal to 0 and a data key
present; every other case returns None. -/
def get_current_status (order_id task_id task_name : String)
    (input : FetchInput) : Option StatusInfo :=
  match input with
  | .exn => none
  | .resp status_code code hasData vid =>
    if status_code = 200 then
      if code = some 0 ∧ hasData then
        some { order_status := vid
               order_status_name := vid
               order_id := order_id
               task_id := task_id
               task_name := task_name }
      else none
    else none

/-- The classification the fetch path performs, read off from which branch
of get_current_status runs and which log line it emits: an exception is a
network-level failure (lines 200-205), a non-200 status is logged as an
HTTP failure (lines 196-198), a 200 response whose payload code is not 0
or lacks a data key is logged as an API error (lines 193-195), and the
remaining case produces a record (lines 184-192). -/
inductive FetchClass where
  | networkError : FetchClass
  | httpError (status_code : Nat) : FetchClass
  | appError : FetchClass
  | success (s : StatusInfo) : FetchClass
deriving DecidableEq, Repr

/-- Branch-by-branch classification of get_current_status. -/
def classify_fetch (order_id task_id task_name : String)
    (input : FetchInput) : FetchClass :=
  match input with
  | .exn => .networkError
  | .resp status_code code hasData vid =>
    if status_code = 200 then
      if code = some 0 ∧ hasData then
        .success { order_status := vid
                   order_status_name := vid
                   order_id := order_id
                   task_id := task_id
                   task_name := task_name }
      else .appError
    else .httpError status_code

/-- The three-way transition classification of the spec.  The source has no
standalone detector; this is the inline comparison of
SingleTaskMonitor.check_status_change (src/xiaomi_monitor.py lines
219-238) factored out: absent baseline gives Initial, a difference in
order_status or order_status_name gives Changed, and otherwise
Unchanged. -/
inductive Transition where
  | Initial : Transition
  | Unchanged : Transition
  | Changed (previous current : StatusInfo) : Transition
deriving DecidableEq, Repr

/-- The detector, read off from check_status_change. -/
def detect (previous : Option StatusInfo) (current : StatusInfo) :
    Transition :=
  match previous with
  | none => .Initial
  | some last =>
    if current.order_status ≠ last.order_status ∨
        current.order_status_name ≠ last.order_status_name then
      .Changed last current
    else .Unchanged

/-- The mutable state of one SingleTaskMonitor (src/xiaomi_monitor.py
lines 133-158): its task id, the last-known status (the baseline), and
the shared store.  notify_log records the (old, new) pairs passed to
notify_status_change, making the dispatch side effect observable; clock
models successive datetime.now readings. -/
structure MonitorState where
  task_id : String
  last_status : Option StatusInfo
  storage : MemoryStorage
  notify_log : List (StatusInfo × StatusInfo)
  clock : Nat

/-- A monitor before its first successful fetch, with a fresh store. -/
def freshMonitor (task_id : String) : MonitorState :=
  { task_id := task_id
    last_status := none
    storage := MemoryStorage.init
    notify_log := []
    clock := 0 }

/-- SingleTaskMonitor.check_status_change (src/xiaomi_monitor.py lines
207-239) with the fetch result passed in.  A failed fetch (None) logs and
returns False without touching any state.  A successful fetch is saved
with flag False; with no baseline it becomes the baseline (no
notification); if either compared field differs from the baseline, a
second record is saved with flag True, notify_status_change is invoked,
and the baseline is replaced; otherwise nothing else changes. -/
def check_status_change (m : MonitorState) (fetch : Option StatusInfo) :
    MonitorState × Bool :=
  match fetch with
  | none => (m, false)
  | some current =>
    let st1 := save_status m.storage m.task_id current m.clock false
    match m.last_status with
    | none =>
      ({ m with
         last_status := some current
         storage := st1
         clock := m.clock + 1 }, false)
    | some last =>
      if current.order_status ≠ last.order_status ∨
          current.order_status_name ≠ last.order_status_name then
        ({ m with
           last_status := some current
           storage := save_status st1 m.task_id current (m.clock + 1) true
           notify_log := m.notify_log ++ [(last, current)]
           clock := m.clock + 2 }, true)
      else
        ({ m with storage := st1, clock := m.clock + 1 }, false)

/-- Run check_status_change over a sequence of fetch results, returning the
final state and the per-cycle return values. -/
def runCycles (m : MonitorState) (fetches : List (Option StatusInfo)) :
    MonitorState × List Bool :=
  match fetches with
  | [] => (m, [])
  | f :: fs =>
    let step := check_status_change m f
    let rest := runCycles step.1 fs
    (rest.1, step.2 :: rest.2)

/-- One entry of the receivers or qq_emails list: an address with an
enabled flag (the name field plays no role in the send path). -/
structure Receiver where
  email : String
  enabled : Bool
deriving DecidableEq, Repr

/-- The smtp_config dictionary with all four keys the send path reads.  An
absent or empty smtp_config dictionary is modelled as none at the
EmailConfig level. -/
structure SmtpConfig where
  smtp_server : String
  smtp_port : Nat
  sender : String
  password : String
deriving DecidableEq, Repr

/-- The email channel configuration.  smtp_config = none models a missing
or empty smtp_config dictionary, which is falsy in the source check and
raises KeyError if the send path reads a key from it. -/
structure EmailConfig where
  enabled : Bool
  smtp_config : Option SmtpConfig
  receivers : List Receiver
deriving DecidableEq, Repr

/-- The qq channel configuration. -/
structure QQConfig where
  enabled : Bool
  qq_emails : List Receiver
deriving DecidableEq, Repr

/-- One entry of the sms phone_numbers list. -/
structure SmsPhone where
  phone : String
  enabled : Bool
deriving DecidableEq, Repr

/-- The sms channel configuration (the provider credentials play no role
in the send path, which only logs). -/
structure SmsConfig where
  enabled : Bool
  phone_numbers : List SmsPhone
deriving DecidableEq, Repr

/-- A notifications dictionary.  In the source each channel is read with
.get and a falsy default; a missing channel key behaves like a config
with enabled = false, which these structures represent directly. -/
structure Notifications where
  email : EmailConfig
  qq : QQConfig
  sms : SmsConfig
deriving DecidableEq, Repr

/-- How one channel send ends, with one constructor per exit of the source:
notEnabled is the silent early return on a cleared flag,
skippedIncomplete and skippedNoReceivers are the logged-warning skips,
skippedNeedsEmail is the distinct warning the qq channel logs when the
primary email flag is off, sent carries the addresses the message went
to, and failed is an exception raised inside the try block, caught and
logged as an error. -/
inductive SendOutcome where
  | notEnabled : SendOutcome
  | skippedIncomplete : SendOutcome
  | skippedNoReceivers : SendOutcome
  | skippedNeedsEmail : SendOutcome
  | sent (recipients : List String) : SendOutcome
  | failed : SendOutcome
deriving DecidableEq, Repr

/-- SingleTaskMonitor.send_email_notification (src/xiaomi_monitor.py lines
241-290).  smtpOk says whether the SMTP session (connect, starttls,
login, send) succeeds; when it raises, the except clause turns it into a
logged failure. -/
def send_email_notification (n : Notifications) (smtpOk : Bool) :
    SendOutcome :=
  if n.email.enabled = false then .notEnabled
  else if n.email.smtp_config = none ∨ n.email.receivers = [] then
    .skippedIncomplete
  else if n.email.receivers.filter (fun r => r.enabled) = [] then
    .skippedNoReceivers
  else if smtpOk then
    .sent ((n.email.receivers.filter (fun r => r.enabled)).map
      (fun r => r.email))
  else .failed

/-- SingleTaskMonitor.send_qq_notification (src/xiaomi_monitor.py lines
292-343).  After the qq flag, the source checks only the primary email
enabled flag (line 299); it then filters the qq addresses and reads the
primary smtp_config inside the try block, so a missing smtp_config
raises KeyError there and is caught as a failure. -/
def send_qq_notification (n : Notifications) (smtpOk : Bool) :
    SendOutcome :=
  if n.qq.enabled = false then .notEnabled
  else if n.email.enabled = false then .skippedNeedsEmail
  else if n.qq.qq_emails.filter (fun q => q.enabled) = [] then
    .skippedNoReceivers
  else
    match n.email.smtp_config with
    | none => .failed
    | some _ =>
      if smtpOk then
        .sent ((n.qq.qq_emails.filter (fun q => q.enabled)).map
          (fun q => q.email))
      else .failed

/-- SingleTaskMonitor.send_sms_notification (src/xiaomi_monitor.py lines
345-364): after the flag and recipient checks it only logs that an SMS
provider would be needed, so no message is ever sent. -/
def send_sms_notification (n : Notifications) : SendOutcome :=
  if n.sms.enabled = false then .notEnabled
  else if n.sms.phone_numbers.filter (fun p => p.enabled) = [] then
    .skippedNoReceivers
  else .sent []

/-- SingleTaskMonitor.notify_status_change (src/xiaomi_monitor.py lines
366-377): the three channel sends run one after the other; each catches
its own transport exception, so each runs whatever the others did.  The
two oracles say whether the email and qq SMTP sessions succeed. -/
def notify_status_change (n : Notifications) (emailOk qqOk : Bool) :
    SendOutcome × SendOutcome × SendOutcome :=
  (send_email_notification n emailOk,
   send_qq_notification n qqOk,
   send_sms_notification n)

/-- Modelled from the spec, for comparison with the code path: the primary
email channel is effective-enabled when its flag is set, its transport
parameters are complete, and at least one recipient is enabled. -/
def spec_email_effective_enabled (n : Notifications) : Bool :=
  n.email.enabled && n.email.smtp_config.isSome &&
    n.email.receivers.any (fun r => r.enabled)

/-- A task entry of monitoring_tasks as SingleTaskMonitor.__init__ reads it
(src/xiaomi_monitor.py lines 136-153): Option marks the keys whose
absence raises KeyError there (task_id, order_id, user_id, headers,
url); the remaining keys are read with .get and a default. -/
structure TaskConfig where
  task_id : Option String
  task_name : Option String
  enabled : Bool
  order_id : Option String
  user_id : Option Int
  url : Option String
  headers : Option (List (String × String))
  check_interval : Option Nat
  notifications : Notifications
deriving DecidableEq, Repr

/-- The fields SingleTaskMonitor.__init__ stores (the initial fetch result
becomes last_status; the storage reference is shared and omitted here). -/
structure MonitorFields where
  task_id : String
  task_name : String
  order_id : String
  user_id : Int
  url : String
  headers : List (String × String)
  check_interval : Nat
  notifications : Notifications
  last_status : Option StatusInfo
deriving DecidableEq, Repr

/-- Python dictionary subscription: a present key yields its value, an
absent key raises KeyError. -/
def pyKey {α : Type} (v : Option α) (k : String) : Except String α :=
  match v with
  | some x => .ok x
  | none => .error ("KeyError: " ++ k)

/-- SingleTaskMonitor.__init__ (src/xiaomi_monitor.py lines 136-158) as a
fallible constructor: the required keys are subscripted in source order
and the first absent one raises; fetch is the result of the initial
get_current_status call. -/
def singleTaskMonitor_init (cfg : TaskConfig)
    (fetch : Option StatusInfo) : Except String MonitorFields := do
  let tid ← pyKey cfg.task_id "task_id"
  let oid ← pyKey cfg.order_id "order_id"
  let uid ← pyKey cfg.user_id "user_id"
  let hdr ← pyKey cfg.headers "headers"
  let u ← pyKey cfg.url "url"
  .ok { task_id := tid
        task_name := cfg.task_name.getD ("任务" ++ tid)
        order_id := oid
        user_id := uid
        url := u
        headers := hdr
        check_interval := cfg.check_interval.getD 30
        notifications := cfg.notifications
        last_status := fetch }

/-- The construction loop of MultiTaskMonitor.__init__
(src/xiaomi_monitor.py lines 422-425): for each enabled task in order,
subscript its task_id and build its SingleTaskMonitor; there is no
surrounding try, so the first KeyError aborts the rest of the loop. -/
def initMonitors (fetch : TaskConfig → Option StatusInfo) :
    List TaskConfig → Except String (List (String × MonitorFields))
  | [] => .ok []
  | t :: ts => do
    let tid ← pyKey t.task_id "task_id"
    let m ← singleTaskMonitor_init t (fetch t)
    let rest ← initMonitors fetch ts
    .ok ((tid, m) :: rest)

/-- MultiTaskMonitor.__init__ (src/xiaomi_monitor.py lines 406-427): filter
the enabled tasks, then run the construction loop.  fetch supplies the
initial fetch result of each task. -/
def multiTaskMonitor_init (tasks : List TaskConfig)
    (fetch : TaskConfig → Option StatusInfo) :
    Except String (List (String × MonitorFields)) :=
  initMonitors fetch (tasks.filter (fun t => t.enabled))

/-- A task is missing one of the keys whose subscription in
SingleTaskMonitor.__init__ (or the task_id subscription in
MultiTaskMonitor.__init__) raises KeyError. -/
def missingRequired (t : TaskConfig) : Prop :=
  t.task_id = none ∨ t.order_id = none ∨ t.user_id = none ∨
    t.headers = none ∨ t.url = none

instance (t : TaskConfig) : Decidable (missingRequired t) := by
  unfold missingRequired; infer_instance

/-! Concrete sample data used by witnesses and counterexamples. -/

/-- A sample fetched status with value A. -/
def infoA : StatusInfo :=
  { order_status := some "A"
    order_status_name := some "A"
    order_id := "5256772385302521"
    task_id := "t1"
    task_name := "task one" }

/-- A sample fetched status with value B. -/
def infoB : StatusInfo :=
  { infoA with order_status := some "B", order_status_name := some "B" }

/-- A sample fetched status with value C. -/
def infoC : StatusInfo :=
  { infoA with order_status := some "C", order_status_name := some "C" }

/-- A sample heterogeneous sequence of appends over two tasks. -/
def sampleOps : List (String × StatusInfo × Nat × Bool) :=
  [("t1", infoA, 0, false), ("t2", infoB, 1, false),
   ("t1", infoB, 2, true), ("t1", infoC, 3, false)]

/-- A sample sequence of three appends to one task. -/
def sampleOps1 : List (StatusInfo × Nat × Bool) :=
  [(infoA, 0, false), (infoB, 1, true), (infoC, 2, false)]

/-- A complete sample smtp configuration. -/
def smtpSample : SmtpConfig :=
  { smtp_server := "smtp.gmail.com"
    smtp_port := 587
    sender := "sender@example.com"
    password := "secret" }

/-- Secondary email enabled while the primary email flag is off. -/
def nQQNoEmail : Notifications :=
  { email := { enabled := false, smtp_config := some smtpSample,
               receivers := [{ email := "a@example.com", enabled := true }] }
    qq := { enabled := true,
            qq_emails := [{ email := "q@qq.com", enabled := true }] }
    sms := { enabled := false, phone_numbers := [] } }

/-- Primary email flag on with complete smtp but zero enabled receivers, so
the primary channel is not effective-enabled, and secondary email enabled
with one enabled address. -/
def nQQEmailFlagOnly : Notifications :=
  { email := { enabled := true, smtp_config := some smtpSample,
               receivers := [{ email := "a@example.com", enabled := false }] }
    qq := { enabled := true,
            qq_emails := [{ email := "q@qq.com", enabled := true }] }
    sms := { enabled := false, phone_numbers := [] } }

/-- Primary email and secondary email both fully eligible. -/
def nBothEligible : Notifications :=
  { email := { enabled := true, smtp_config := some smtpSample,
               receivers := [{ email := "a@example.com", enabled := true }] }
    qq := { enabled := true,
            qq_emails := [{ email := "q@qq.com", enabled := true }] }
    sms := { enabled := false, phone_numbers := [] } }

/-- Empty notifications, every channel off. -/
def nNone : Notifications :=
  { email := { enabled := false, smtp_config := none, receivers := [] }
    qq := { enabled := false, qq_emails := [] }
    sms := { enabled := false, phone_numbers := [] } }

/-- An enabled task with every required key present. -/
def taskGood : TaskConfig :=
  { task_id := some "t_good"
    task_name := some "good task"
    enabled := true
    order_id := some "5256772385302521"
    user_id := some 1014566219
    url := some "https://api.retail.xiaomiev.com/mtop/car-order/order/detail"
    headers := some [("Content-Type", "application/json")]
    check_interval := some 30
    notifications := nNone }

/-- An enabled task whose order_id key is absent. -/
def taskMissingOrder : TaskConfig :=
  { taskGood with task_id := some "t_bad", order_id := none }

/-! Helper lemmas about the store. -/

theorem save_status_history_self (st : MemoryStorage) (tid : String)
    (info : StatusInfo) (now : Nat) (b : Bool) :
    (save_status st tid info now b).status_history tid
      = appendCapped (st.status_history tid) (mkRecord info now b)
          st.max_history_size := by
  simp [save_status]

theorem save_status_history_other (st : MemoryStorage) (tid tid' : String)
    (info : StatusInfo) (now : Nat) (b : Bool) (h : tid' ≠ tid) :
    (save_status st tid info now b).status_history tid'
      = st.status_history tid' := by
  simp [save_status, h]

theorem save_status_cap (st : MemoryStorage) (tid : String)
    (info : StatusInfo) (now : Nat) (b : Bool) :
    (save_status st tid info now b).max_history_size
      = st.max_history_size := rfl

theorem length_appendCapped (l : List StatusRecord) (r : StatusRecord)
    (cap : Nat) (hc : 0 < cap) (hl : l.length ≤ cap) :
    (appendCapped l r cap).length ≤ cap := by
  unfold appendCapped pySliceLast
  split_ifs with h1 h2
  · simp only [List.length_append, List.length_cons, List.length_nil] at h1 ⊢
    omega
  · simp only [List.length_drop, List.length_append, List.length_cons,
      List.length_nil] at h1 ⊢
    omega
  · simp only [List.length_append, List.length_cons, List.length_nil] at h1 ⊢
    omega

theorem getLast?_appendCapped (l : List StatusRecord) (r : StatusRecord)
    (cap : Nat) : (appendCapped l r cap).getLast? = some r := by
  unfold appendCapped pySliceLast
  split_ifs with h1 h2
  · exact List.getLast?_concat l
  · have hk : (l ++ [r]).length - cap ≤ l.length := by
      simp only [List.length_append, List.length_cons, List.length_nil]
      omega
    rw [List.drop_append_of_le_length hk]
    exact List.getLast?_concat _
  · exact List.getLast?_concat l

theorem get_latest_status_save (st : MemoryStorage) (tid : String)
    (info : StatusInfo) (now : Nat) (b : Bool) :
    get_latest_status (save_status st tid info now b) tid
      = some (mkRecord info now b) := by
  unfold get_latest_status
  rw [save_status_history_self]
  exact getLast?_appendCapped _ _ _

theorem appendCapped_drop (L : List StatusRecord) (r : StatusRecord)
    (cap n : Nat) (hc : 0 < cap) (hn : n = L.length) :
    appendCapped (L.drop (n - cap)) r cap
      = (L ++ [r]).drop (n + 1 - cap) := by
  subst hn
  rcases Nat.lt_or_ge L.length cap with h | h
  · have h1 : L.length - cap = 0 := by omega
    have h2 : L.length + 1 - cap = 0 := by omega
    rw [h1, List.drop_zero, h2, List.drop_zero]
    unfold appendCapped
    rw [if_neg]
    simp only [List.length_append, List.length_cons, List.length_nil]
    omega
  · unfold appendCapped
    have h1 : ((L.drop (L.length - cap)) ++ [r]).length > cap := by
      simp only [List.length_append, List.length_cons, List.length_nil,
        List.length_drop]
      omega
    rw [if_pos h1]
    unfold pySliceLast
    rw [if_neg (by omega : ¬ cap = 0)]
    have h3 : ((L.drop (L.length - cap)) ++ [r]).length - cap = 1 := by
      simp only [List.length_append, List.length_cons, List.length_nil,
        List.length_drop]
      omega
    rw [h3]
    rw [← List.drop_append_of_le_length
      (show L.length - cap ≤ L.length by omega)]
    rw [List.drop_drop]
    congr 1
    omega

theorem save_many_one_append_op (st : MemoryStorage) (tid : String)
    (ops : List (StatusInfo × Nat × Bool)) (op : StatusInfo × Nat × Bool) :
    save_many_one st tid (ops ++ [op])
      = save_status (save_many_one st tid ops) tid op.1 op.2.1 op.2.2 := by
  unfold save_many_one
  rw [List.foldl_append]
  rfl

theorem save_many_one_cap (tid : String)
    (ops : List (StatusInfo × Nat × Bool)) :
    ∀ st : MemoryStorage,
      (save_many_one st tid ops).max_history_size = st.max_history_size := by
  induction ops with
  | nil => intro st; rfl
  | cons op ops ih =>
    intro st
    exact ih (save_status st tid op.1 op.2.1 op.2.2)

theorem save_many_one_history (st : MemoryStorage) (tid : String)
    (hc : 0 < st.max_history_size) (h0 : st.status_history tid = [])
    (ops : List (StatusInfo × Nat × Bool)) :
    (save_many_one st tid ops).status_history tid
      = (ops.map (fun op => mkRecord op.1 op.2.1 op.2.2)).drop
          (ops.length - st.max_history_size) := by
  induction ops using List.reverseRecOn with
  | nil => simpa using h0
  | append_singleton ops op ih =>
    rw [save_many_one_append_op, save_status_history_self, ih,
      save_many_one_cap]
    simp only [List.map_append, List.map_cons, List.map_nil,
      List.length_append, List.length_cons, List.length_nil]
    exact appendCapped_drop _ _ _ _ hc (by simp)

theorem save_many_length_le (ops : List (String × StatusInfo × Nat × Bool)) :
    ∀ st : MemoryStorage, 0 < st.max_history_size →
      (∀ tid, (st.status_history tid).length ≤ st.max_history_size) →
      ∀ tid, ((save_many st ops).status_history tid).length
        ≤ st.max_history_size := by
  induction ops with
  | nil => intro st _ h tid; exact h tid
  | cons op ops ih =>
    intro st hc h tid
    have hh : ∀ tid',
        ((save_status st op.1 op.2.1 op.2.2.1 op.2.2.2).status_history
          tid').length
        ≤ (save_status st op.1 op.2.1 op.2.2.1 op.2.2.2).max_history_size := by
      intro tid'
      rw [save_status_cap]
      by_cases he : tid' = op.1
      · subst he
        rw [save_status_history_self]
        exact length_appendCapped _ _ _ hc (h _)
      · rw [save_status_history_other _ _ _ _ _ _ he]
        exact h tid'
    exact ih (save_status st op.1 op.2.1 op.2.2.1 op.2.2.2) hc hh tid

/-! Helper lemmas about one monitor cycle. -/

theorem check_status_change_none (m : MonitorState) :
    check_status_change m none = (m, false) := rfl

theorem check_status_change_first (m : MonitorState) (current : StatusInfo)
    (h : m.last_status = none) :
    check_status_change m (some current)
      = ({ m with
           last_status := some current
           storage := save_status m.storage m.task_id current m.clock false
           clock := m.clock + 1 }, false) := by
  simp only [check_status_change, h]

theorem check_status_change_changed (m : MonitorState)
    (last current : StatusInfo) (h : m.last_status = some last)
    (hne : current.order_status ≠ last.order_status ∨
      current.order_status_name ≠ last.order_status_name) :
    check_status_change m (some current)
      = ({ m with
           last_status := some current
           storage := save_status
             (save_status m.storage m.task_id current m.clock false)
             m.task_id current (m.clock + 1) true
           notify_log := m.notify_log ++ [(last, current)]
           clock := m.clock + 2 }, true) := by
  simp only [check_status_change, h, if_pos hne]

theorem check_status_change_unchanged (m : MonitorState)
    (last current : StatusInfo) (h : m.last_status = some last)
    (h1 : current.order_status = last.order_status)
    (h2 : current.order_status_name = last.order_status_name) :
    check_status_change m (some current)
      = ({ m with
           storage := save_status m.storage m.task_id current m.clock false
           clock := m.clock + 1 }, false) := by
  have hcon : ¬ (current.order_status ≠ last.order_status ∨
      current.order_status_name ≠ last.order_status_name) := by
    push_neg
    exact ⟨h1, h2⟩
  simp only [check_status_change, h, if_neg hcon]

/-! Claim theorems. -/

/-- Claim C10: calling clear_history with the empty-string task id clears
the histories of every task in the store, exactly like the clear-all case,
because the source tests the argument with Python truthiness and the empty
string is falsy; it does not clear only the sequence keyed by the empty
string. -/
theorem clear_history_empty_string_clears_all (st : MemoryStorage)
    (tid : String) :
    (clear_history st (some "")).status_history tid = [] ∧
    clear_history st (some "") = clear_history st none := by
  constructor
  · rfl
  · rfl

/-- Claim C9 counterexample: with exactly one record stored for task t1,
recent with the nonnegative limit 0 returns that whole record list (the
Python slice with index -0 is the full list), so the result holds more
than limit records, refuting the claim at limit = 0. -/
theorem recent_zero_limit_counterexample :
    (get_status_history (save_status MemoryStorage.init "t1" infoA 0 false)
        "t1" 0).length = 1 ∧
    ¬ (get_status_history (save_status MemoryStorage.init "t1" infoA 0 false)
        "t1" 0).length ≤ 0 := by
  constructor
  · rfl
  · decide

/-- Claim C9 (amended): for every positive limit, recent returns exactly
the last limit records in chronological order (the suffix of the history
from position length - limit), hence never more than limit and fewer when
the history is shorter, and the empty list for a task with no records; at
limit = 0 the implementation instead returns the entire history. -/
theorem recent_limit_amended (st : MemoryStorage) (tid : String)
    (limit : Nat) (hl : 0 < limit) :
    get_status_history st tid limit
        = (st.status_history tid).drop
            ((st.status_history tid).length - limit) ∧
    (get_status_history st tid limit).length ≤ limit ∧
    (st.status_history tid = [] → get_status_history st tid limit = []) := by
  have hlim : ¬ (limit = 0) := by omega
  cases hE : st.status_history tid with
  | nil =>
    refine ⟨?_, ?_, fun _ => ?_⟩ <;>
      simp [get_status_history, hE, pySliceLast]
  | cons a t =>
    have hne : (st.status_history tid).isEmpty = false := by rw [hE]; rfl
    refine ⟨?_, ?_, fun hnil => ?_⟩
    · simp [get_status_history, hne, pySliceLast, hlim, hE]
    · simp only [get_status_history, hne, Bool.false_eq_true, if_false,
        pySliceLast, hlim]
      rw [List.length_drop]
      omega
    · simp [hE] at hnil

/-- Claim C9 witness: the amended statement applied to a concrete store of
two records with limit 1 returns exactly the later record. -/
theorem recent_limit_amended_witness :
    get_status_history
        (save_status (save_status MemoryStorage.init "t1" infoA 0 false)
          "t1" infoB 1 true) "t1" 1
      = ((save_status (save_status MemoryStorage.init "t1" infoA 0 false)
          "t1" infoB 1 true).status_history "t1").drop
          (((save_status (save_status MemoryStorage.init "t1" infoA 0 false)
            "t1" infoB 1 true).status_history "t1").length - 1) :=
  (recent_limit_amended
    (save_status (save_status MemoryStorage.init "t1" infoA 0 false)
      "t1" infoB 1 true) "t1" 1 (by decide)).1

/-- Claim C3: change detection follows exactly the three ordered rules of
the code: an absent baseline always yields Initial (never Changed) and a
first-fetch cycle dispatches no notification; a pair agreeing on both
order_status and order_status_name yields Unchanged; a pair differing in
order_status or order_status_name under exact-value comparison yields
Changed with the two statuses. -/
theorem detect_three_rules :
    (∀ X : StatusInfo, detect none X = Transition.Initial) ∧
    (∀ (m : MonitorState) (X : StatusInfo), m.last_status = none →
      (check_status_change m (some X)).1.notify_log = m.notify_log ∧
        (check_status_change m (some X)).2 = false) ∧
    (∀ R1 R2 : StatusInfo, R2.order_status = R1.order_status →
      R2.order_status_name = R1.order_status_name →
      detect (some R1) R2 = Transition.Unchanged) ∧
    (∀ R1 R2 : StatusInfo, (R2.order_status ≠ R1.order_status ∨
        R2.order_status_name ≠ R1.order_status_name) →
      detect (some R1) R2 = Transition.Changed R1 R2) := by
  refine ⟨fun X => rfl, ?_, ?_, ?_⟩
  · intro m X h
    rw [check_status_change_first m X h]
    exact ⟨rfl, rfl⟩
  · intro R1 R2 h1 h2
    have hd : detect (some R1) R2
        = if R2.order_status ≠ R1.order_status ∨
            R2.order_status_name ≠ R1.order_status_name then
            Transition.Changed R1 R2
          else Transition.Unchanged := rfl
    rw [hd, if_neg]
    push_neg
    exact ⟨h1, h2⟩
  · intro R1 R2 h
    have hd : detect (some R1) R2
        = if R2.order_status ≠ R1.order_status ∨
            R2.order_status_name ≠ R1.order_status_name then
            Transition.Changed R1 R2
          else Transition.Unchanged := rfl
    rw [hd, if_pos h]

/-- Claim C3 witness: the three rules applied at concrete statuses, and the
no-notification fact at a fresh monitor. -/
theorem detect_three_rules_witness :
    detect none infoA = Transition.Initial ∧
    ((check_status_change (freshMonitor "t1") (some infoA)).1.notify_log
        = (freshMonitor "t1").notify_log ∧
      (check_status_change (freshMonitor "t1") (some infoA)).2 = false) ∧
    detect (some infoA) infoA = Transition.Unchanged ∧
    detect (some infoA) infoB = Transition.Changed infoA infoB :=
  ⟨detect_three_rules.1 infoA,
   detect_three_rules.2.1 (freshMonitor "t1") infoA rfl,
   detect_three_rules.2.2.1 infoA infoA rfl rfl,
   detect_three_rules.2.2.2 infoA infoB (Or.inl (by decide))⟩

/-- Claim C4: the fresh store is configured with cap 1000; with any
positive cap c, no sequence of saves (over any mix of task ids) pushes any
task history beyond c, oldest entries being dropped from the front; and
after appending c + k records to one task, recent(task, c) returns exactly
the last c appended records in insertion order. -/
theorem history_cap_invariant (c : Nat) (hc : 0 < c)
    (ops : List (String × StatusInfo × Nat × Bool)) (tid : String)
    (ops1 : List (StatusInfo × Nat × Bool)) (tid1 : String)
    (hk : c ≤ ops1.length) :
    MemoryStorage.init.max_history_size = 1000 ∧
    ((save_many { status_history := fun _ => [], max_history_size := c }
        ops).status_history tid).length ≤ c ∧
    get_status_history
        (save_many_one { status_history := fun _ => [], max_history_size := c }
          tid1 ops1) tid1 c
      = (ops1.map (fun op => mkRecord op.1 op.2.1 op.2.2)).drop
          (ops1.length - c) := by
  refine ⟨rfl, ?_, ?_⟩
  · exact save_many_length_le ops _ hc (fun _ => by simp) tid
  · have hhist : (save_many_one
          { status_history := fun _ => [], max_history_size := c }
          tid1 ops1).status_history tid1
        = (ops1.map (fun op => mkRecord op.1 op.2.1 op.2.2)).drop
            (ops1.length - c) :=
      save_many_one_history
        { status_history := fun _ => [], max_history_size := c }
        tid1 hc rfl ops1
    have hlen : ((ops1.map (fun op => mkRecord op.1 op.2.1 op.2.2)).drop
        (ops1.length - c)).length = c := by
      rw [List.length_drop, List.length_map]
      omega
    have hnil : (save_many_one
          { status_history := fun _ => [], max_history_size := c }
          tid1 ops1).status_history tid1 ≠ [] := by
      rw [hhist]
      intro hcon
      rw [hcon] at hlen
      simp only [List.length_nil] at hlen
      omega
    have hne : ((save_many_one
          { status_history := fun _ => [], max_history_size := c }
          tid1 ops1).status_history tid1).isEmpty = false :=
      List.isEmpty_eq_false.mpr hnil
    unfold get_status_history
    rw [hne]
    simp only [Bool.false_eq_true, if_false]
    rw [hhist]
    unfold pySliceLast
    rw [if_neg (by omega : ¬ c = 0), hlen]
    simp

/-- Claim C4 witness: cap 2 with three appends on one task and a mixed
sequence on two tasks. -/
theorem history_cap_invariant_witness :
    MemoryStorage.init.max_history_size = 1000 ∧
    ((save_many { status_history := fun _ => [], max_history_size := 2 }
        sampleOps).status_history "t1").length ≤ 2 ∧
    get_status_history
        (save_many_one { status_history := fun _ => [], max_history_size := 2 }
          "t1" sampleOps1) "t1" 2
      = (sampleOps1.map (fun op => mkRecord op.1 op.2.1 op.2.2)).drop
          (sampleOps1.length - 2) :=
  history_cap_invariant 2 (by decide) sampleOps "t1" sampleOps1 "t1"
    (by decide)

/-- Claim C1: the baseline is updated exactly by successful fetches: a
failed fetch leaves the whole monitor state (hence both latest and the
baseline) unchanged and returns False; a successful fetch always leaves
the baseline agreeing with the fetched status on both compared fields and
leaves latest holding the record of the fetched status; and on the fetch
sequence [A, fail, B] the third cycle compares B against the baseline A,
returning the results [False, False, True] and dispatching exactly the
notification (A, B). -/
theorem baseline_updated_iff_fetch_succeeds
    (m : MonitorState) (current A B : StatusInfo) (tid : String)
    (hAB : B.order_status ≠ A.order_status ∨
      B.order_status_name ≠ A.order_status_name) :
    check_status_change m none = (m, false) ∧
    (∃ s : StatusInfo,
      (check_status_change m (some current)).1.last_status = some s ∧
      s.order_status = current.order_status ∧
      s.order_status_name = current.order_status_name ∧
      ∃ t b, get_latest_status
          (check_status_change m (some current)).1.storage m.task_id
        = some (mkRecord current t b)) ∧
    (runCycles (freshMonitor tid) [some A, none, some B]).2
      = [false, false, true] ∧
    (runCycles (freshMonitor tid) [some A, none, some B]).1.notify_log
      = [(A, B)] ∧
    (runCycles (freshMonitor tid) [some A, none, some B]).1.last_status
      = some B := by
  refine ⟨check_status_change_none m, ?_, ?_⟩
  · cases hm : m.last_status with
    | none =>
      rw [check_status_change_first m current hm]
      exact ⟨current, rfl, rfl, rfl, m.clock, false,
        get_latest_status_save _ _ _ _ _⟩
    | some last =>
      by_cases hch : current.order_status ≠ last.order_status ∨
          current.order_status_name ≠ last.order_status_name
      · rw [check_status_change_changed m last current hm hch]
        exact ⟨current, rfl, rfl, rfl, m.clock + 1, true,
          get_latest_status_save _ _ _ _ _⟩
      · push_neg at hch
        rw [check_status_change_unchanged m last current hm hch.1 hch.2]
        exact ⟨last, hm, hch.1.symm, hch.2.symm, m.clock, false,
          get_latest_status_save _ _ _ _ _⟩
  · refine ⟨?_, ?_, ?_⟩
    all_goals simp only [runCycles, check_status_change, freshMonitor]
    all_goals rw [if_pos hAB]
    all_goals simp

/-- Claim C1 witness: the statement at a concrete monitor and the concrete
statuses A and B. -/
theorem baseline_updated_iff_fetch_succeeds_witness :
    check_status_change (freshMonitor "t1") none
        = (freshMonitor "t1", false) ∧
    (∃ s : StatusInfo,
      (check_status_change (freshMonitor "t1") (some infoA)).1.last_status
        = some s ∧
      s.order_status = infoA.order_status ∧
      s.order_status_name = infoA.order_status_name ∧
      ∃ t b, get_latest_status
          (check_status_change (freshMonitor "t1") (some infoA)).1.storage
          (freshMonitor "t1").task_id
        = some (mkRecord infoA t b)) ∧
    (runCycles (freshMonitor "t1") [some infoA, none, some infoB]).2
      = [false, false, true] ∧
    (runCycles (freshMonitor "t1") [some infoA, none, some infoB]).1.notify_log
      = [(infoA, infoB)] ∧
    (runCycles (freshMonitor "t1") [some infoA, none, some infoB]).1.last_status
      = some infoB :=
  baseline_updated_iff_fetch_succeeds (freshMonitor "t1") infoA infoA infoB
    "t1" (Or.inl (by decide))

/-- Claim C2 counterexample: polling the statuses [A, A, B, B, C] across
five successful cycles from a fresh monitor yields the per-cycle results
[False, False, True, False, True] (two Changed transitions), but the
history store then holds seven records for the task, not five, because
each Changed cycle appends a second, change-flagged record; the change
flags sit on records 4 and 7, not on records 3 and 5. -/
theorem five_cycle_scenario_counterexample :
    (runCycles (freshMonitor "t1")
        [some infoA, some infoA, some infoB, some infoB, some infoC]).2
      = [false, false, true, false, true] ∧
    ((runCycles (freshMonitor "t1")
        [some infoA, some infoA, some infoB, some infoB,
          some infoC]).1.storage.status_history "t1").length = 7 ∧
    ¬ ((runCycles (freshMonitor "t1")
        [some infoA, some infoA, some infoB, some infoB,
          some infoC]).1.storage.status_history "t1").length = 5 ∧
    ((runCycles (freshMonitor "t1")
        [some infoA, some infoA, some infoB, some infoB,
          some infoC]).1.storage.status_history "t1").map
        (fun r => r.change_detected)
      = [false, false, false, true, false, false, true] := by
  refine ⟨?_, ?_, ?_, ?_⟩ <;> decide

/-- Claim C2 (amended): for a task polled with statuses [A, A, B, B, C]
across five successful cycles, with A, B and then B, C differing in a
compared field, exactly two Changed transitions are detected (cycles 3 and
5, dispatching (A, B) then (B, C)), and the history store holds exactly
seven records for that task: the five fetch records plus one extra
change-flagged record per transition, with change_detected true on exactly
records 4 and 7. -/
theorem five_cycle_scenario_amended (tid : String) (A B C : StatusInfo)
    (hAB : B.order_status ≠ A.order_status ∨
      B.order_status_name ≠ A.order_status_name)
    (hBC : C.order_status ≠ B.order_status ∨
      C.order_status_name ≠ B.order_status_name) :
    (runCycles (freshMonitor tid) [some A, some A, some B, some B, some C]).2
      = [false, false, true, false, true] ∧
    (runCycles (freshMonitor tid)
        [some A, some A, some B, some B, some C]).1.notify_log
      = [(A, B), (B, C)] ∧
    ((runCycles (freshMonitor tid)
        [some A, some A, some B, some B, some C]).1.storage.status_history
          tid).map (fun r => r.change_detected)
      = [false, false, false, true, false, false, true] := by
  have hAA : ¬ (A.order_status ≠ A.order_status ∨
      A.order_status_name ≠ A.order_status_name) := by
    push_neg
    exact ⟨rfl, rfl⟩
  have hBB : ¬ (B.order_status ≠ B.order_status ∨
      B.order_status_name ≠ B.order_status_name) := by
    push_neg
    exact ⟨rfl, rfl⟩
  refine ⟨?_, ?_, ?_⟩
  all_goals simp only [runCycles, check_status_change, freshMonitor]
  all_goals rw [if_neg hAA]
  all_goals simp only []
  all_goals rw [if_pos hAB]
  all_goals simp only []
  all_goals rw [if_neg hBB]
  all_goals simp only []
  all_goals rw [if_pos hBC]
  all_goals simp [save_status, appendCapped, pySliceLast, mkRecord,
    MemoryStorage.init]

/-- Claim C2 witness: the amended scenario at the concrete statuses A, B
and C. -/
theorem five_cycle_scenario_amended_witness :
    (runCycles (freshMonitor "t2")
        [some infoA, some infoA, some infoB, some infoB, some infoC]).2
      = [false, false, true, false, true] ∧
    (runCycles (freshMonitor "t2")
        [some infoA, some infoA, some infoB, some infoB,
          some infoC]).1.notify_log
      = [(infoA, infoB), (infoB, infoC)] ∧
    ((runCycles (freshMonitor "t2")
        [some infoA, some infoA, some infoB, some infoB,
          some infoC]).1.storage.status_history "t2").map
        (fun r => r.change_detected)
      = [false, false, false, true, false, false, true] :=
  five_cycle_scenario_amended "t2" infoA infoB infoC
    (Or.inl (by decide)) (Or.inl (by decide))

/-! Helper lemmas about startup construction. -/

theorem singleTaskMonitor_init_error (t : TaskConfig)
    (f : Option StatusInfo) (hm : missingRequired t) (y : MonitorFields) :
    singleTaskMonitor_init t f ≠ Except.ok y := by
  intro hc
  unfold missingRequired at hm
  rcases h1 : t.task_id with _ | tid <;>
  rcases h2 : t.order_id with _ | oid <;>
  rcases h3 : t.user_id with _ | uid <;>
  rcases h4 : t.headers with _ | hdr <;>
  rcases h5 : t.url with _ | u <;>
    simp_all [singleTaskMonitor_init, pyKey, Bind.bind, Except.bind]

theorem initMonitors_ok_forall (fetch : TaskConfig → Option StatusInfo) :
    ∀ (l : List TaskConfig) (res : List (String × MonitorFields)),
      initMonitors fetch l = Except.ok res →
      ∀ x ∈ l, ∃ y, singleTaskMonitor_init x (fetch x) = Except.ok y := by
  intro l
  induction l with
  | nil =>
    intro res _ x hx
    cases hx
  | cons a as ih =>
    intro res h x hx
    simp only [initMonitors] at h
    cases hk : pyKey a.task_id "task_id" with
    | error e =>
      rw [hk] at h
      simp [Bind.bind, Except.bind] at h
    | ok tid =>
      rw [hk] at h
      cases hs : singleTaskMonitor_init a (fetch a) with
      | error e =>
        rw [hs] at h
        simp [Bind.bind, Except.bind] at h
      | ok m =>
        rw [hs] at h
        cases hr : initMonitors fetch as with
        | error e =>
          rw [hr] at h
          simp [Bind.bind, Except.bind] at h
        | ok rest =>
          cases hx with
          | head => exact ⟨m, hs⟩
          | tail _ hx2 => exact ih rest hr x hx2

/-- Claim C5 counterexample: a task list holding one enabled task missing
order_id followed by one complete enabled task is not handled by skipping
the bad task: the whole construction raises KeyError, so the complete
task, which alone constructs fine, gets no monitor either. -/
theorem missing_field_aborts_startup_counterexample :
    multiTaskMonitor_init [taskMissingOrder, taskGood] (fun _ => none)
        = Except.error "KeyError: order_id" ∧
    (multiTaskMonitor_init [taskGood] (fun _ => none)).isOk = true := by
  constructor
  · rfl
  · rfl

/-- Claim C5 (amended/corrected): a task configuration missing a required
field (task identifier, order identifier, user identifier, headers, or
endpoint URL) is not logged and skipped: its KeyError propagates out of
MultiTaskMonitor initialisation, so startup aborts with an error and no
task at all receives a monitor; the exception is caught only by the
top-level main handler. -/
theorem missing_field_aborts_startup (tasks : List TaskConfig)
    (fetch : TaskConfig → Option StatusInfo) (t : TaskConfig)
    (ht : t ∈ tasks) (he : t.enabled = true) (hm : missingRequired t) :
    ∀ l, multiTaskMonitor_init tasks fetch ≠ Except.ok l := by
  intro l hc
  unfold multiTaskMonitor_init at hc
  have hmem : t ∈ tasks.filter (fun t => t.enabled) :=
    List.mem_filter.mpr ⟨ht, he⟩
  rcases initMonitors_ok_forall fetch _ l hc t hmem with ⟨y, hy⟩
  exact singleTaskMonitor_init_error t (fetch t) hm y hy

/-- Claim C5 witness: the amended statement at the concrete bad and good
tasks. -/
theorem missing_field_aborts_startup_witness :
    multiTaskMonitor_init [taskMissingOrder, taskGood] (fun _ => none)
      ≠ Except.ok [] :=
  missing_field_aborts_startup [taskMissingOrder, taskGood] (fun _ => none)
    taskMissingOrder (by decide) (by decide) (by decide) []

/-- Claim C6 counterexample: a configuration with the primary email flag
set, complete smtp parameters, but zero enabled primary receivers is not
effective-enabled in the sense of the spec, yet with secondary email
enabled and a working session the secondary message still goes out: the
code gates the secondary channel only on the primary enabled flag, not on
the primary recipients. -/
theorem qq_gate_counterexample :
    spec_email_effective_enabled nQQEmailFlagOnly = false ∧
    send_qq_notification nQQEmailFlagOnly true
      = SendOutcome.sent ["q@qq.com"] := by
  constructor
  · rfl
  · rfl

/-- Claim C6 (amended/corrected): the secondary email channel sends only
when the secondary flag, the primary email enabled flag, the presence of
the borrowed smtp parameters and a successful session all hold — it does
not re-check the primary channel's recipients; and with secondary email
enabled but primary email disabled, the outcome is the distinct
skippedNeedsEmail warning, so zero secondary messages are sent. -/
theorem qq_requires_email_flag (n : Notifications) (ok : Bool)
    (r : List String) :
    (send_qq_notification n ok = SendOutcome.sent r →
      n.qq.enabled = true ∧ n.email.enabled = true ∧
        n.email.smtp_config ≠ none ∧ ok = true) ∧
    (n.qq.enabled = true → n.email.enabled = false →
      send_qq_notification n ok = SendOutcome.skippedNeedsEmail) := by
  constructor
  · intro hs
    unfold send_qq_notification at hs
    cases hq : n.qq.enabled with
    | false => simp [hq] at hs
    | true =>
      cases he : n.email.enabled with
      | false => simp [hq, he] at hs
      | true =>
        by_cases hf : n.qq.qq_emails.filter (fun q => q.enabled) = []
        · simp [hq, he, hf] at hs
        · cases hsm : n.email.smtp_config with
          | none => simp [hq, he, hf, hsm] at hs
          | some s =>
            cases hok : ok with
            | false => simp [hq, he, hf, hsm, hok] at hs
            | true => exact ⟨rfl, rfl, by simp [hsm], rfl⟩
  · intro hq he
    unfold send_qq_notification
    rw [if_neg (by simp [hq]), if_pos he]

/-- Claim C6 witness: with secondary email enabled and primary email
disabled the outcome is the distinct warning, and a concrete sent outcome
forces the primary email flag. -/
theorem qq_requires_email_flag_witness :
    send_qq_notification nQQNoEmail true = SendOutcome.skippedNeedsEmail ∧
    (send_qq_notification nBothEligible true = SendOutcome.sent ["q@qq.com"] →
      nBothEligible.qq.enabled = true ∧ nBothEligible.email.enabled = true ∧
        nBothEligible.email.smtp_config ≠ none ∧ true = true) :=
  ⟨(qq_requires_email_flag nQQNoEmail true []).2 rfl rfl,
   fun h => (qq_requires_email_flag nBothEligible true ["q@qq.com"]).1 h⟩

/-- Claim C7: dispatch runs the three channel sends as a total function of
the configuration and the transport oracles, so one channel's transport
failure is caught inside its own send (becoming a logged failed outcome)
and never changes another channel's outcome or escapes dispatch; an
eligible primary email channel is always attempted (it ends sent or
failed, never skipped), an eligible secondary channel likewise, and with
both channels eligible, a failing email session and a working secondary
session yield failed for email while the secondary message still goes
out. -/
theorem dispatch_channel_isolation (n : Notifications)
    (e1 e2 q1 q2 : Bool) :
    (notify_status_change n e1 q1
      = (send_email_notification n e1, send_qq_notification n q1,
          send_sms_notification n)) ∧
    ((notify_status_change n e1 q1).1 = (notify_status_change n e1 q2).1 ∧
      (notify_status_change n e1 q1).2.1
        = (notify_status_change n e2 q1).2.1 ∧
      (notify_status_change n e1 q1).2.2
        = (notify_status_change n e2 q2).2.2) ∧
    (n.email.enabled = true → n.email.smtp_config ≠ none →
      n.email.receivers ≠ [] →
      n.email.receivers.filter (fun r => r.enabled) ≠ [] →
      (send_email_notification n e1
          = SendOutcome.sent ((n.email.receivers.filter
              (fun r => r.enabled)).map (fun r => r.email)) ∨
        send_email_notification n e1 = SendOutcome.failed)) ∧
    (n.qq.enabled = true → n.email.enabled = true →
      n.qq.qq_emails.filter (fun q => q.enabled) ≠ [] →
      n.email.smtp_config ≠ none →
      (send_qq_notification n q1
          = SendOutcome.sent ((n.qq.qq_emails.filter
              (fun q => q.enabled)).map (fun q => q.email)) ∨
        send_qq_notification n q1 = SendOutcome.failed)) ∧
    (n.email.enabled = true → n.email.smtp_config ≠ none →
      n.email.receivers ≠ [] →
      n.email.receivers.filter (fun r => r.enabled) ≠ [] →
      n.qq.enabled = true → n.qq.qq_emails.filter (fun q => q.enabled) ≠ [] →
      send_email_notification n false = SendOutcome.failed ∧
        send_qq_notification n true
          = SendOutcome.sent ((n.qq.qq_emails.filter
              (fun q => q.enabled)).map (fun q => q.email))) := by
  refine ⟨rfl, ⟨rfl, rfl, rfl⟩, ?_, ?_, ?_⟩
  · intro he hs hr hf
    unfold send_email_notification
    rw [if_neg (by simp [he]), if_neg (by push_neg; exact ⟨hs, hr⟩),
      if_neg hf]
    cases e1 with
    | false => right; rfl
    | true => left; rfl
  · intro hq he hf hs
    unfold send_qq_notification
    rw [if_neg (by simp [hq]), if_neg (by simp [he]), if_neg hf]
    cases hsm : n.email.smtp_config with
    | none => exact absurd hsm hs
    | some s =>
      cases q1 with
      | false => right; rfl
      | true => left; rfl
  · intro he hs hr hf hq hqf
    constructor
    · unfold send_email_notification
      rw [if_neg (by simp [he]), if_neg (by push_neg; exact ⟨hs, hr⟩),
        if_neg hf]
      rfl
    · unfold send_qq_notification
      rw [if_neg (by simp [hq]), if_neg (by simp [he]), if_neg hqf]
      cases hsm : n.email.smtp_config with
      | none => exact absurd hsm hs
      | some s => rfl

/-- Claim C7 witness: the statement at a configuration with both email
channels eligible, showing that a failing email session leaves the
secondary send going out. -/
theorem dispatch_channel_isolation_witness :
    send_email_notification nBothEligible false = SendOutcome.failed ∧
    send_qq_notification nBothEligible true
      = SendOutcome.sent ((nBothEligible.qq.qq_emails.filter
          (fun q => q.enabled)).map (fun q => q.email)) :=
  (dispatch_channel_isolation nBothEligible false false true true).2.2.2.2
    rfl (by decide) (by decide) (by decide) rfl (by decide)

/-- Claim C8 counterexample: a 201 response with a well-formed payload
(code 0, data present, vid present) is in the 2xx class, yet the fetcher
produces no record and classifies it as an HTTP failure, because the
source compares the status code to 200 exactly. -/
theorem fetch_2xx_counterexample :
    get_current_status "o1" "t1" "n1"
        (FetchInput.resp 201 (some 0) true (some "X")) = none ∧
    classify_fetch "o1" "t1" "n1"
        (FetchInput.resp 201 (some 0) true (some "X"))
      = FetchClass.httpError 201 := by
  constructor
  · rfl
  · rfl

/-- Claim C8 (amended/corrected): an exception yields the network class
with no record; any response with status other than exactly 200 (hence
every non-2xx and also every other 2xx such as 201) yields the HTTP class
with no record; a 200 response whose payload lacks code 0 or a data key
yields the application class with no record; a 200 response with a
well-formed payload yields a status whose record, as the monitor first
saves it, carries change_detected = false. -/
theorem fetch_classification_amended (oid tid tname : String) (sc : Nat)
    (code : Option Int) (hasData : Bool) (vid : Option String)
    (st : MemoryStorage) (now : Nat) (info : StatusInfo) :
    (classify_fetch oid tid tname FetchInput.exn = FetchClass.networkError ∧
      get_current_status oid tid tname FetchInput.exn = none) ∧
    (sc ≠ 200 →
      classify_fetch oid tid tname (FetchInput.resp sc code hasData vid)
          = FetchClass.httpError sc ∧
        get_current_status oid tid tname (FetchInput.resp sc code hasData vid)
          = none) ∧
    (¬ (code = some 0 ∧ hasData = true) →
      classify_fetch oid tid tname (FetchInput.resp 200 code hasData vid)
          = FetchClass.appError ∧
        get_current_status oid tid tname (FetchInput.resp 200 code hasData vid)
          = none) ∧
    (code = some 0 → hasData = true →
      get_current_status oid tid tname (FetchInput.resp 200 code hasData vid)
        = some { order_status := vid
                 order_status_name := vid
                 order_id := oid
                 task_id := tid
                 task_name := tname }) ∧
    (get_latest_status (save_status st tid info now false) tid
        = some (mkRecord info now false) ∧
      (mkRecord info now false).change_detected = false) := by
  refine ⟨⟨rfl, rfl⟩, ?_, ?_, ?_, ?_, rfl⟩
  · intro hsc
    constructor
    · simp [classify_fetch, hsc]
    · simp [get_current_status, hsc]
  · intro hbad
    constructor
    · simp [classify_fetch, hbad]
    · simp [get_current_status, hbad]
  · intro hc hd
    simp [get_current_status, hc, hd]
  · exact get_latest_status_save st tid info now false

/-- Claim C8 witness: the amended statement at a non-200 status 404, an
application error on a 200 response, and a concrete save of a fetched
status. -/
theorem fetch_classification_amended_witness :
    (classify_fetch "o1" "t1" "n1" FetchInput.exn
        = FetchClass.networkError ∧
      get_current_status "o1" "t1" "n1" FetchInput.exn = none) ∧
    (classify_fetch "o1" "t1" "n1" (FetchInput.resp 404 (some 0) true none)
        = FetchClass.httpError 404 ∧
      get_current_status "o1" "t1" "n1"
        (FetchInput.resp 404 (some 0) true none) = none) ∧
    (classify_fetch "o1" "t1" "n1" (FetchInput.resp 200 (some 5) true none)
        = FetchClass.appError ∧
      get_current_status "o1" "t1" "n1"
        (FetchInput.resp 200 (some 5) true none) = none) ∧
    get_current_status "o1" "t1" "n1"
        (FetchInput.resp 200 (some 0) true (some "A"))
      = some { order_status := some "A"
               order_status_name := some "A"
               order_id := "o1"
               task_id := "t1"
               task_name := "n1" } ∧
    (get_latest_status (save_status MemoryStorage.init "t1" infoA 7 false)
        "t1" = some (mkRecord infoA 7 false) ∧
      (mkRecord infoA 7 false).change_detected = false) :=
  ⟨(fetch_classification_amended "o1" "t1" "n1" 404 (some 0) true none
      MemoryStorage.init 7 infoA).1,
   (fetch_classification_amended "o1" "t1" "n1" 404 (some 0) true none
      MemoryStorage.init 7 infoA).2.1 (by decide),
   (fetch_classification_amended "o1" "t1" "n1" 404 (some 5) true none
      MemoryStorage.init 7 infoA).2.2.1 (by decide),
   (fetch_classification_amended "o1" "t1" "n1" 404 (some 0) true (some "A")
      MemoryStorage.init 7 infoA).2.2.2.1 rfl rfl,
   (fetch_classification_amended "o1" "t1" "n1" 404 (some 0) true none
      MemoryStorage.init 7 infoA).2.2.2.2⟩

end Yu7Monitor
